import Mathlib

/-!
Verification of the LinkedIn Easy Apply agent (`main.py`).

This file shallowly embeds the field-resolution cascade, the advisory
client, the application-flow loop, the form-fill pass, the choice
resolver, the job-deduplication loop and the history persistence of the
source program, and proves (or refutes) the spec's claims about them.

Modelling conventions:
* Python strings are Lean `String`s.  The Python string operations used
  by the source (`in`, `.lower()`, `.strip()`, slicing, `.split()`) are
  re-implemented over the underlying character list so that all
  definitions evaluate by kernel reduction; `.lower()` is modelled on
  the ASCII range, which covers every keyword the source compares
  against.
* Selenium attribute reads (`get_attribute`) yield `Option String`;
  `none` stands for an absent attribute (or an empty one, at call sites
  that test Python truthiness).
* `float(...)` / `int(...)` parsing is modelled by `pyParseFloat` /
  `pyParseInt` over plain decimal literals (sign, digits, optional
  decimal part); exotic literals (exponents, `inf`, `nan`, underscores)
  are outside the model.  A failed parse takes the `except` path of the
  enclosing `try`.
* HTTP requests are an `HttpOutcome`: either the request (or the JSON
  field extraction) raised, or a response with a status code and an
  optional well-formed payload.
-/

namespace EasyApply

/-- Python `needle in hay` on lists of characters: `needle` is a prefix
of some suffix of `hay`.  The empty needle is contained in anything. -/
def pyInAux (needle : List Char) : List Char → Bool
  | [] => needle.isEmpty
  | c :: rest => needle.isPrefixOf (c :: rest) || pyInAux needle rest

/-- Python substring containment `needle in hay` for strings. -/
def pyIn (needle hay : String) : Bool :=
  pyInAux needle.data hay.data

/-- Python `str.lower()` (ASCII range, which covers all keywords the
source compares against). -/
def pyLower (s : String) : String :=
  String.mk (s.data.map Char.toLower)

/-- Python slicing `s[:n]` for a non-negative bound `n`. -/
def pyTakeStr (s : String) (n : Nat) : String :=
  String.mk (s.data.take n)

/-- Python `str.strip()` on character lists: drop leading and trailing
whitespace. -/
def pyStripAux (l : List Char) : List Char :=
  ((l.dropWhile Char.isWhitespace).reverse.dropWhile Char.isWhitespace).reverse

/-- Python `str.strip()`. -/
def pyStrip (s : String) : String :=
  String.mk (pyStripAux s.data)

/-- Outcome of one `requests.post` call in `GroqAgent.query`: the call
(or the later `response.json()[...]` extraction) raised, or it returned
a response with an HTTP status and, when the JSON body was well formed,
the extracted message content. -/
inductive HttpOutcome where
  | raised : HttpOutcome
  | response : Nat → Option String → HttpOutcome

/-- `GroqAgent.query` (main.py lines 97-123): the whole body is wrapped
in `try/except`; on HTTP 200 with a well-formed payload it returns the
stripped content, and every other path falls through to `return ""`. -/
def query : HttpOutcome → String
  | HttpOutcome.raised => ""
  | HttpOutcome.response status payload =>
      if status = 200 then
        match payload with
        | some content => pyStrip content
        | none => ""
      else ""

/-- An advisory-service failure: the request raised (timeout,
connection error), the status was not 200, or the payload was
malformed. -/
def advisoryFailure : HttpOutcome → Bool
  | HttpOutcome.raised => true
  | HttpOutcome.response status payload => decide (status ≠ 200) || payload.isNone

/-- `GroqAgent.should_apply` (main.py lines 125-142), `try` branch.
The job description only feeds the prompt sent to the service, so the
service reply is abstracted as the `HttpOutcome` of the underlying
`query` call.  Since `query` never raises, the `except` branch of
`should_apply` (the keyword fallback) is unreachable and the `try`
branch is the whole observable behaviour. -/
def shouldApply (outcome : HttpOutcome) (_jobDescription : String) : Bool × String :=
  let response := query outcome
  (pyIn "yes" (pyTakeStr (pyLower response) 20), response)

/-- The `except` branch of `GroqAgent.should_apply`: deterministic
keyword match over the fixed role-title substrings. -/
def keywordFallback (jobDescription : String) : Bool × String :=
  let descLower := pyLower jobDescription
  let engKeywords := ["software engineer", "developer", "programmer",
    "backend", "frontend", "full stack", "fullstack"]
  let hasEng := engKeywords.any (fun k => pyIn k descLower)
  (hasEng, if hasEng then "Keyword match" else "No match")

/-- C9: for every prompt, `GroqAgent.query` never raises (it is a total
function of the request outcome), and on any request failure, timeout,
non-200 status or malformed payload it returns the empty string, so the
caller observes advisory failure only as `""`. -/
theorem query_failure_returns_empty (o : HttpOutcome)
    (h : advisoryFailure o = true) : query o = "" := by
  cases o with
  | raised => rfl
  | response status payload =>
      simp only [advisoryFailure, Bool.or_eq_true, decide_eq_true_eq,
        Option.isNone_iff_eq_none] at h
      cases h with
      | inl hs => simp [query, hs]
      | inr hp => cases payload <;> simp_all [query]

/-- Witness for C9 at a concrete failing outcome. -/
theorem query_failure_returns_empty_witness :
    query HttpOutcome.raised = "" :=
  query_failure_returns_empty HttpOutcome.raised rfl

/-- C1: on advisory failure, `GroqAgent.should_apply` does NOT fall
back to the keyword match.  `query` swallows every exception and
returns `""`, so the `except` branch of `should_apply` is dead code:
the gate evaluates `'yes' in ''` and returns `(False, "")`, blocking
the job solely because the advisory service was unavailable, even
though the description contains "Backend Developer" and the (never
reached) fallback would have returned `(True, "Keyword match")`. -/
theorem shouldApply_blocks_on_advisory_failure :
    shouldApply HttpOutcome.raised "We are hiring a Backend Developer" = (false, "")
    ∧ keywordFallback "We are hiring a Backend Developer" = (true, "Keyword match") := by
  constructor
  · decide
  · decide

/-- Value of a finished decimal literal: `num / 10 ^ scale`.  Python
floats produced by the source are decimal literals from profile fields
and HTML attributes, so this exact representation is faithful on every
value the program manipulates (no binary rounding is modelled). -/
structure Dec where
  num : Int
  scale : Nat
  deriving DecidableEq

/-- Comparison `a < b` of two decimals by cross multiplication. -/
def decLtB (a b : Dec) : Bool :=
  decide (a.num * (10 : Int) ^ b.scale < b.num * (10 : Int) ^ a.scale)

/-- Exact sum of two decimals (no normalisation needed). -/
def decAdd (a b : Dec) : Dec :=
  ⟨a.num * (10 : Int) ^ b.scale + b.num * (10 : Int) ^ a.scale, a.scale + b.scale⟩

/-- The decimal 0.5, as added by `_format_number` when bumping below a
declared minimum with a decimal step. -/
def decHalf : Dec := ⟨5, 1⟩

/-- Python `int(...)` applied to a float: truncation toward zero. -/
def pyTruncDec (d : Dec) : Int :=
  if 0 ≤ d.num then Int.ofNat (d.num.toNat / 10 ^ d.scale)
  else -Int.ofNat ((-d.num).toNat / 10 ^ d.scale)

/-- Python `f"{x:.2f}"` as an integer count of hundredths: rounding of
`100 * x` (half away from zero at exact ties, which none of the
program's values hit). -/
def pyRound2 (d : Dec) : Int :=
  Int.fdiv (200 * d.num + (10 : Int) ^ d.scale) (2 * (10 : Int) ^ d.scale)

/-- Numeric value of a run of decimal digit characters. -/
def digitsToNat (l : List Char) : Nat :=
  l.foldl (fun a c => a * 10 + (c.toNat - 48)) 0

/-- Python `float(s)` on plain decimal literals: optional surrounding
whitespace, optional sign, digits with an optional fractional part.
`none` is a `ValueError`. -/
def pyParseFloat (s : String) : Option Dec :=
  let t := pyStripAux s.data
  let sgn : Int := match t with
    | '-' :: _ => -1
    | _ => 1
  let t2 : List Char := match t with
    | '-' :: r => r
    | '+' :: r => r
    | _ => t
  let ip := t2.takeWhile Char.isDigit
  let rest := t2.dropWhile Char.isDigit
  match rest with
  | [] => if ip.isEmpty then none else some ⟨sgn * (digitsToNat ip : Int), 0⟩
  | '.' :: fr =>
      let fp := fr.takeWhile Char.isDigit
      let rest2 := fr.dropWhile Char.isDigit
      if !rest2.isEmpty then none
      else if ip.isEmpty && fp.isEmpty then none
      else some ⟨sgn * (digitsToNat (ip ++ fp) : Int), fp.length⟩
  | _ => none

/-- Python `int(s)` on plain integer literals.  `none` is a
`ValueError` (in particular `int("2.5")` raises). -/
def pyParseInt (s : String) : Option Int :=
  let t := pyStripAux s.data
  let sgn : Int := match t with
    | '-' :: _ => -1
    | _ => 1
  let t2 : List Char := match t with
    | '-' :: r => r
    | '+' :: r => r
    | _ => t
  if t2.isEmpty || !t2.all Char.isDigit then none
  else some (sgn * (digitsToNat t2 : Int))

/-- Parse an optional numeric HTML attribute with Python `int`:
an absent attribute stays absent, a present one must parse (a parse
failure raises, taking the `except` path of the caller). -/
def parseAttrInt : Option String → Option (Option Int)
  | none => some none
  | some s =>
      match pyParseInt s with
      | none => none
      | some v => some (some v)

/-- Clamping arithmetic at the heart of `_format_years` (main.py lines
642-660): raise to a declared `min`, cap at a declared `max` (at 99
when absent), finally floor at 0. -/
def formatYearsCore (yi : Int) (mi ma : Option Int) : Int :=
  let y1 := match mi with
    | some m => max yi m
    | none => yi
  let y2 := match ma with
    | some m => min y1 m
    | none => min y1 99
  max y2 0

/-- `LinkedInJobAgent._format_years` (main.py lines 642-660).  The
whole body is a `try`; a parse failure of the profile value or of a
declared attribute takes the `except` path and returns `"1"`. -/
def formatYears (years : String) (minA maxA : Option String) : String :=
  match pyParseFloat years, parseAttrInt minA, parseAttrInt maxA with
  | some y, some mi, some ma => toString (formatYearsCore (pyTruncDec y) mi ma)
  | _, _, _ => "1"

/-- Render an integer count of hundredths the way `f"{x:.2f}"` prints
it, e.g. `250 ↦ "2.50"`. -/
def render2dp (n : Int) : String :=
  let sgn := if n < 0 then "-" else ""
  let m := n.natAbs
  let frac := m % 100
  let fracStr := if frac < 10 then "0" ++ toString frac else toString frac
  sgn ++ toString (m / 100) ++ "." ++ fracStr

/-- `LinkedInJobAgent._format_number` (main.py lines 662-684): format
as two decimals when the `step` attribute contains a dot, else as a
truncated integer; when the result is below a declared `min`, replace
it by `min + 0.5` (decimal step) or `int(min) + 1` (integer step).
The `max` attribute is never read.  Any parse failure takes the
`except` path, returning `str(value)`, i.e. the input unchanged. -/
def formatNumber (value : String) (stepA minA : Option String) : String :=
  match pyParseFloat value with
  | none => value
  | some num =>
      let stepDot := match stepA with
        | some s => s.data.contains '.'
        | none => false
      let fStr := if stepDot then render2dp (pyRound2 num) else toString (pyTruncDec num)
      let fVal : Dec := if stepDot then ⟨pyRound2 num, 2⟩ else ⟨pyTruncDec num, 0⟩
      match minA with
      | none => fStr
      | some ms =>
          match pyParseFloat ms with
          | none => value
          | some minD =>
              if decLtB fVal minD then
                if stepDot then render2dp (pyRound2 (decAdd minD decHalf))
                else toString (pyTruncDec minD + 1)
              else fStr

/-- The three numeric/step attributes `_format_years`, `_format_number`
and `_get_field_value_with_validation` read from a field element.
`none` is an absent (or empty, hence falsy) attribute. -/
structure ElemAttrs where
  minAttr : Option String
  maxAttr : Option String
  stepAttr : Option String

/-- The candidate profile: the key/value mapping built by
`ProfileManager.load_profile`. -/
abbrev Profile := List (String × String)

/-- Python `p.get(k, d)`: the stored value when the key is present,
the default only when the key is absent. -/
def pget (p : Profile) (k d : String) : String :=
  (p.lookup k).getD d

/-- Python `str.split()` (no argument): split on whitespace runs,
dropping empty pieces. -/
def pySplitWsAux : List Char → List Char → List String
  | [], acc => if acc.isEmpty then [] else [String.mk acc.reverse]
  | c :: rest, acc =>
      if c.isWhitespace then
        if acc.isEmpty then pySplitWsAux rest []
        else String.mk acc.reverse :: pySplitWsAux rest []
      else pySplitWsAux rest (c :: acc)

/-- Python `str.split()` for strings. -/
def pySplitWs (s : String) : List String :=
  pySplitWsAux s.data []

/-- Python `s.split(sep)` for a non-empty separator, with explicit
fuel for termination (the fuel is always sufficient at `length`). -/
def pySplitSepAux (sep : List Char) : Nat → List Char → List Char → List String
  | _, [], acc => [String.mk acc.reverse]
  | 0, l, acc => [String.mk (acc.reverse ++ l)]
  | fuel + 1, l, acc =>
      if sep.isPrefixOf l then
        String.mk acc.reverse :: pySplitSepAux sep fuel (l.drop sep.length) []
      else
        match l with
        | [] => [String.mk acc.reverse]
        | c :: rest => pySplitSepAux sep fuel rest (c :: acc)

/-- Python `s.split(sep)` for strings. -/
def pySplitSep (sep s : String) : List String :=
  pySplitSepAux sep.data s.data.length s.data []

/-- Python `' '.join(l)`. -/
def joinSpace : List String → String
  | [] => ""
  | [s] => s
  | s :: rest => s ++ " " ++ joinSpace rest

/-- First maximal run of digits in a string: `re.search(r'(\d+)', s)`. -/
def firstDigitRun : List Char → Option (List Char)
  | [] => none
  | c :: rest =>
      if c.isDigit then some (c :: rest.takeWhile Char.isDigit)
      else firstDigitRun rest

/-- The `tech_keywords` table of `_get_field_value_with_validation`
(main.py lines 574-593), in Python dict insertion order. -/
def techKeywords : List (String × String) :=
  [("python", "python_experience"), ("javascript", "javascript_experience"),
   ("react", "react_experience"), ("vue", "vue_experience"),
   ("angular", "angular_experience"), ("node", "node_experience"),
   ("next.js", "nextjs_experience"), ("next", "nextjs_experience"),
   (".net", "dotnet_experience"), ("dotnet", "dotnet_experience"),
   ("asp.net", "aspnet_experience"), ("java", "java_experience"),
   ("c++", "cpp_experience"), ("c#", "csharp_experience"),
   ("sql", "sql_experience"), ("aws", "aws_experience"),
   ("docker", "docker_experience"), ("kubernetes", "kubernetes_experience")]

/-- First tech keyword contained in the (lower-cased) label, mapped to
its profile attribute name. -/
def findTechAttr (l : String) : Option String :=
  (techKeywords.find? (fun kv => pyIn kv.1 l)).map (fun kv => kv.2)

/-- The salary/compensation branch of
`_get_field_value_with_validation` (main.py lines 604-617): infer the
currency from the label, fetch the expected salary with dict-get
defaults `'700'` (USD) / `'30000'` (EGP), and format it. -/
def salaryValue (l : String) (el : ElemAttrs) (p : Profile) : String :=
  let currencyUsd := (pyIn "usd" l || pyIn "$" l || pyIn "dollar" l)
      && !pyIn "egp" l && !pyIn "egyptian" l
  let salary := if currencyUsd then pget p "expected_salary_in_usd" "700"
    else pget p "expected_salary_in_egp" "30000"
  formatNumber salary el.stepAttr el.minAttr

/-- `LinkedInJobAgent._get_field_value_with_validation` (main.py lines
542-640): the profile-exact tier of the resolution cascade, a
first-match-wins chain over label keywords.  A whitespace-only profile
name would make the first-name branch raise `IndexError` (caught by
the caller's per-field `except`); that corner is modelled as `""`. -/
def getFieldValue (label : String) (el : ElemAttrs) (p : Profile) : String :=
  let l := pyLower label
  if pyIn "email" l then pget p "email" ""
  else if pyIn "phone" l || pyIn "mobile" l then pget p "phone" ""
  else if pyIn "first name" l || pyIn "given name" l then
    (if pget p "name" "" = "" then "" else (pySplitWs (pget p "name" "")).getD 0 "")
  else if pyIn "last name" l || pyIn "family name" l || pyIn "surname" l then
    (if 1 < (pySplitWs (pget p "name" "")).length
      then joinSpace ((pySplitWs (pget p "name" "")).drop 1) else "")
  else if pyIn "full name" l && !pyIn "first" l && !pyIn "last" l then pget p "name" ""
  else if pyIn "linkedin" l then pget p "linkedin" ""
  else if pyIn "github" l then pget p "github" ""
  else if pyIn "website" l || pyIn "portfolio" l then pget p "website" ""
  else if pyIn "city" l || (pyIn "location" l && !pyIn "relocate" l) then
    (if pget p "location" "" = "" then ""
      else pyStrip ((pySplitSep "," (pget p "location" "")).getD 0 ""))
  else if pyIn "years" l && pyIn "experience" l then
    (match findTechAttr l with
     | some attr => formatYears (pget p attr (pget p "years_experience" "0")) el.minAttr el.maxAttr
     | none => formatYears (pget p "years_experience" "0") el.minAttr el.maxAttr)
  else if pyIn "salary" l || pyIn "compensation" l then salaryValue l el p
  else if pyIn "start" l && (pyIn "date" l || pyIn "when" l || pyIn "available" l) then
    (let notice := pget p "notice_period" "1 month"
     if pyIn "immediate" (pyLower notice) || pyIn "asap" (pyLower notice) then "0"
     else match firstDigitRun notice.data with
       | some ds =>
           if pyIn "week" (pyLower notice) then toString (digitsToNat ds * 7)
           else if pyIn "month" (pyLower notice) then toString (digitsToNat ds * 30)
           else String.mk ds
       | none => "30")
  else if pyIn "current company" l || pyIn "employer" l then
    (let workExp := pget p "work_experience" ""
     if pyIn "at " workExp then
       pyStrip ((pySplitSep "(" ((pySplitSep "at " workExp).getD 1 "")).getD 0 "")
     else "")
  else ""

/-- C2 counterexample: the claim is false as stated.  A salary field
with a declared `max` of 10 and profile salary 30000 resolves, through
the salary branch and `_format_number`, to `"30000"`: `_format_number`
never reads the `max` attribute, so the output violates the declared
maximum (and the claimed default ceiling of 99 as well). -/
theorem salaryNumber_ignores_declared_max :
    getFieldValue "Expected salary" ⟨none, some "10", none⟩
      [("expected_salary_in_egp", "30000")] = "30000"
    ∧ ¬ ((30000 : Int) ≤ 10) := by
  constructor
  · decide
  · decide

/-- C2 as amended: the YEARS formatter `_format_years` does satisfy the
claimed clamping, for a parseable profile value and consistent declared
bounds (`min ≤ max`, `0 ≤ max`): the result lies within the declared
bounds, is never negative, and is capped at the default ceiling 99
when `max` is absent; in particular the descriptor `min=2, max=10`
with profile years `0` resolves to `"2"`.  (The number formatter used
for salary fields enforces no `max`; see the counterexample.) -/
theorem formatYears_respects_bounds (yi m bigM : Int)
    (h1 : m ≤ bigM) (h2 : 0 ≤ bigM) :
    m ≤ formatYearsCore yi (some m) (some bigM)
    ∧ formatYearsCore yi (some m) (some bigM) ≤ bigM
    ∧ 0 ≤ formatYearsCore yi (some m) none
    ∧ formatYearsCore yi (some m) none ≤ 99
    ∧ 0 ≤ formatYearsCore yi none (some bigM)
    ∧ formatYearsCore yi none (some bigM) ≤ bigM
    ∧ formatYears "0" (some "2") (some "10") = "2" := by
  refine ⟨?_, ?_, ?_, ?_, ?_, ?_, by decide⟩ <;>
    simp only [formatYearsCore] <;> omega

/-- Witness for C2 at the claim's own example. -/
theorem formatYears_respects_bounds_witness :
    2 ≤ formatYearsCore 0 (some 2) (some 10)
    ∧ formatYearsCore 0 (some 2) (some 10) ≤ 10
    ∧ 0 ≤ formatYearsCore 0 (some 2) none
    ∧ formatYearsCore 0 (some 2) none ≤ 99
    ∧ 0 ≤ formatYearsCore 0 none (some 10)
    ∧ formatYearsCore 0 none (some 10) ≤ 10
    ∧ formatYears "0" (some "2") (some "10") = "2" :=
  formatYears_respects_bounds 0 2 10 (by decide) (by decide)

/-- C10 counterexample: the claim is false as stated.  With the salary
attribute PRESENT but EMPTY (exactly what `ProfileManager.load_profile`
produces when the profile file lacks the field), the dict-get default
`'700'` does not fire: the tier resolves to `""` (via the `except`
path of `_format_number`), not to the hardcoded default. -/
theorem salaryDefault_skipped_when_value_empty :
    getFieldValue "Expected salary (USD)" ⟨none, none, none⟩
      [("expected_salary_in_usd", "")] = ""
    ∧ "" ≠ "700" := by
  constructor
  · decide
  · decide

/-- C10 as amended: the hardcoded defaults `"700"` (USD cue) and
`"30000"` (otherwise) are dict-get defaults, so they apply exactly when
the salary key is ABSENT from the profile mapping; a present-but-empty
value instead resolves to `""` and the field falls through to later
tiers. -/
theorem salaryDefault_requires_absent_key (p : Profile)
    (husd : p.lookup "expected_salary_in_usd" = none)
    (hegp : p.lookup "expected_salary_in_egp" = none) :
    salaryValue (pyLower "Expected salary (USD)") ⟨none, none, none⟩ p = "700"
    ∧ salaryValue (pyLower "Expected salary") ⟨none, none, none⟩ p = "30000"
    ∧ getFieldValue "Expected salary (USD)" ⟨none, none, none⟩ [] = "700"
    ∧ getFieldValue "Expected salary" ⟨none, none, none⟩
        [("expected_salary_in_egp", "")] = "" := by
  refine ⟨?_, ?_, by decide, by decide⟩
  · simp only [salaryValue]
    split_ifs with h
    · simp only [pget, husd, Option.getD_none]
      decide
    · exact absurd (by decide) h
  · simp only [salaryValue]
    split_ifs with h
    · exact absurd h (by decide)
    · simp only [pget, hegp, Option.getD_none]
      decide

/-- Witness for C10 at the empty profile (both keys absent). -/
theorem salaryDefault_requires_absent_key_witness :
    salaryValue (pyLower "Expected salary (USD)") ⟨none, none, none⟩ [] = "700"
    ∧ salaryValue (pyLower "Expected salary") ⟨none, none, none⟩ [] = "30000"
    ∧ getFieldValue "Expected salary (USD)" ⟨none, none, none⟩ [] = "700"
    ∧ getFieldValue "Expected salary" ⟨none, none, none⟩
        [("expected_salary_in_egp", "")] = "" :=
  salaryDefault_requires_absent_key [] rfl rfl

/-- Python `s.strip(c)` for a single character: drop leading and
trailing occurrences of `c`. -/
def pyStripCharAux (c : Char) (l : List Char) : List Char :=
  ((l.dropWhile (· == c)).reverse.dropWhile (· == c)).reverse

/-- Python `s.strip(c)` for strings. -/
def pyStripChar (c : Char) (s : String) : String :=
  String.mk (pyStripCharAux c s.data)

/-- Python slicing `s[:k]` with a possibly negative bound: a negative
`k` counts from the end (`s[:-1]` drops the last character), clamped
to the empty string when `len(s) + k < 0`. -/
def pySliceTo (s : String) (k : Int) : String :=
  if 0 ≤ k then String.mk (s.data.take k.toNat)
  else String.mk (s.data.take ((s.data.length : Int) + k).toNat)

/-- The answer clean-up in `_ai_answer_field`:
`response.strip().strip('"').strip("'")`. -/
def cleanResponse (response : String) : String :=
  pyStripChar (Char.ofNat 39) (pyStripChar '"' (pyStrip response))

/-- `LinkedInJobAgent._ai_answer_field` post-processing (main.py lines
802-823), as a function of the field's input type, its `maxlength`
attribute and the advisory response (the prompt construction only
shapes the response and is abstracted into it).  Numeric fields whose
cleaned answer does not parse as a float are forced to `"0"` (and
return before the maxlength check); other fields are truncated to
`answer[:maxlength-3] + '...'` when over a parseable `maxlength`. -/
def aiAnswerField (inputType : String) (maxlengthA : Option String) (response : String) : String :=
  let answer := cleanResponse response
  if inputType = "number" then
    match pyParseFloat answer with
    | some _ => answer
    | none => "0"
  else
    match maxlengthA with
    | none => answer
    | some ms =>
        match pyParseInt ms with
        | none => answer
        | some m =>
            if m < (answer.length : Int) then pySliceTo answer (m - 3) ++ "..." else answer

/-- C8 counterexample: the claim is false as stated.  For a declared
`maxlength` of 2 and a 7-character answer, the truncation
`answer[:2-3] + '...'` slices with a NEGATIVE index, dropping only the
last character and appending three dots: the result has length 9 > 2,
violating the claimed limit. -/
theorem aiAnswer_truncation_violates_tiny_maxlength :
    aiAnswerField "text" (some "2") "hello!!" = "hello!..."
    ∧ ¬ ((aiAnswerField "text" (some "2") "hello!!").length ≤ 2) := by
  constructor
  · decide
  · decide

/-- C8 as amended: a numeric field whose cleaned advisory response does
not parse as a number resolves to `"0"`; and for non-numeric fields
with a declared `maxlength` of at least 3, the resolved value has
length at most `maxlength` (truncation then yields exactly
`maxlength` characters ending in `...`). -/
theorem aiAnswerField_fallback_props (t ms response : String) (m : Int) :
    (t = "number" → pyParseFloat (cleanResponse response) = none →
      aiAnswerField t (some ms) response = "0")
    ∧ (t ≠ "number" → pyParseInt ms = some m → 3 ≤ m →
      ((aiAnswerField t (some ms) response).length : Int) ≤ m) := by
  constructor
  · intro ht hparse
    simp only [aiAnswerField, if_pos ht, hparse]
  · intro hne hms hm
    simp only [aiAnswerField, if_neg hne, hms]
    by_cases hlt : m < ((cleanResponse response).length : Int)
    · rw [if_pos hlt]
      rw [pySliceTo, if_pos (by omega : (0 : Int) ≤ m - 3)]
      have hdots : ("..." : String) = String.mk ['.', '.', '.'] := rfl
      rw [hdots]
      have : String.mk ((cleanResponse response).data.take (m - 3).toNat) ++
          String.mk ['.', '.', '.'] =
          String.mk ((cleanResponse response).data.take (m - 3).toNat ++ ['.', '.', '.']) := rfl
      rw [this]
      have hlen : (String.mk ((cleanResponse response).data.take (m - 3).toNat ++
          ['.', '.', '.'])).length =
          ((cleanResponse response).data.take (m - 3).toNat).length + 3 := by
        show ((cleanResponse response).data.take (m - 3).toNat ++ ['.', '.', '.']).length = _
        rw [List.length_append]
        rfl
      rw [hlen, List.length_take]
      have hdata : (cleanResponse response).data.length = (cleanResponse response).length := rfl
      rw [hdata]
      omega
    · rw [if_neg hlt]
      omega

/-- Witness for C8: the numeric part at an unparseable response, the
maxlength part at a long response with `maxlength` 5. -/
theorem aiAnswerField_fallback_props_witness :
    aiAnswerField "number" (some "5") "maybe two" = "0"
    ∧ ((aiAnswerField "text" (some "5") "a long enough answer").length : Int) ≤ 5 :=
  ⟨(aiAnswerField_fallback_props "number" "5" "maybe two" 5).1 rfl (by decide),
   (aiAnswerField_fallback_props "text" "5" "a long enough answer" 5).2
     (by decide) (by decide) (by decide)⟩

/-- One pass of the `for step in range(max_steps)` loop of
`_complete_application` (main.py lines 398-423), parameterised by the
per-iteration document behaviour: `complete i` is the value of
`_is_application_complete()` at iteration `i`, `click i` the value of
`_click_next_button()`.  Returns the boolean result together with the
number of fill/advance cycles performed (iterations that got past the
completion check). -/
def appLoop (complete click : Nat → Bool) : Nat → Nat → Bool × Nat
  | _, 0 => (false, 0)
  | i, fuel + 1 =>
      if complete i then (true, 0)
      else if !click i then (false, 1)
      else
        let r := appLoop complete click (i + 1) fuel
        (r.1, r.2 + 1)

/-- `LinkedInJobAgent._complete_application`: the loop with
`max_steps = 10`; falling off the loop returns `False` ("Max steps
reached", the failed state). -/
def completeApplication (complete click : Nat → Bool) : Bool × Nat :=
  appLoop complete click 0 10

/-- C3: when the completion predicate never holds and the progression
control is always found, enabled and clicked successfully, the
application flow performs exactly 10 fill/advance cycles and then
terminates in the failed state. -/
theorem completeApplication_exhausts_steps (complete click : Nat → Bool)
    (hc : ∀ i, complete i = false) (hk : ∀ i, click i = true) :
    completeApplication complete click = (false, 10) := by
  have gen : ∀ fuel i, appLoop complete click i fuel = (false, fuel) := by
    intro fuel
    induction fuel with
    | zero => intro i; rfl
    | succ n ih => intro i; simp [appLoop, hc i, hk i, ih (i + 1)]
  exact gen 10 0

/-- Witness for C3 with the constant never-complete, always-clickable
document. -/
theorem completeApplication_exhausts_steps_witness :
    completeApplication (fun _ => false) (fun _ => true) = (false, 10) :=
  completeApplication_exhausts_steps _ _ (fun _ => rfl) (fun _ => rfl)

/-- A simple fillable field as seen by one `_fill_application_form`
pass: its label, its current value and whether a validation error is
flagged against its containing group after the main sweep. -/
structure SimpleField where
  label : String
  currentValue : String
  hasError : Bool

/-- The per-field body of the main fill loop (main.py lines 434-471):
skip the field when its current value is non-empty and not pure
whitespace, otherwise resolve it (the whole cascade is abstracted as
`resolve`) and write the value if one was found. -/
def fillField (resolve : SimpleField → String) (f : SimpleField) : SimpleField :=
  if f.currentValue ≠ "" ∧ pyStrip f.currentValue ≠ "" then f
  else
    let v := resolve f
    if v ≠ "" then { f with currentValue := v } else f

/-- The per-field body of the validation-repair sweep (main.py lines
501-519): re-resolve and re-write only fields inside an error group
whose value is (still) empty. -/
def repairField (resolveRepair : SimpleField → String) (f : SimpleField) : SimpleField :=
  if f.hasError = true ∧ f.currentValue = "" then
    let v := resolveRepair f
    if v ≠ "" then { f with currentValue := v } else f
  else f

/-- One `_fill_application_form` pass over the simple fields: the main
fill sweep followed by the validation-repair sweep. -/
def formFillPass (resolve resolveRepair : SimpleField → String)
    (fs : List SimpleField) : List SimpleField :=
  (fs.map (fillField resolve)).map (repairField resolveRepair)

/-- C4: a simple field whose current value is non-empty and not pure
whitespace at the start of a pass is never written: neither the main
sweep (which skips it) nor the repair sweep (which only touches empty
fields) changes it, whatever the resolvers return. -/
theorem prefilled_field_unchanged (resolve resolveRepair : SimpleField → String)
    (fs : List SimpleField) (i : Nat) (h1 : i < fs.length)
    (h2 : i < (formFillPass resolve resolveRepair fs).length)
    (hpre : pyStrip (fs.get ⟨i, h1⟩).currentValue ≠ "") :
    (formFillPass resolve resolveRepair fs).get ⟨i, h2⟩ = fs.get ⟨i, h1⟩ := by
  have key : ∀ f : SimpleField, pyStrip f.currentValue ≠ "" →
      repairField resolveRepair (fillField resolve f) = f := by
    intro f hf
    have hne : f.currentValue ≠ "" := by
      intro h0
      apply hf
      rw [h0]
      rfl
    rw [fillField, if_pos ⟨hne, hf⟩, repairField, if_neg]
    intro hcon
    exact hne hcon.2
  simp only [formFillPass, List.map_map] at h2 ⊢
  simp only [List.get_eq_getElem, List.getElem_map, Function.comp_apply]
  exact key _ hpre

/-- Witness for C4: a field pre-filled with `"Cairo"` survives a pass
whose resolvers would write `"X"` everywhere. -/
theorem prefilled_field_unchanged_witness :
    (formFillPass (fun _ => "X") (fun _ => "X")
      [⟨"City", "Cairo", true⟩]).get ⟨0, by decide⟩ =
      (⟨"City", "Cairo", true⟩ : SimpleField) :=
  prefilled_field_unchanged (fun _ => "X") (fun _ => "X")
    [⟨"City", "Cairo", true⟩] 0 (by decide) (by decide) (by decide)

/-- One labelled option of a radio/checkbox group, with its visible
text and whether its underlying input is currently selected. -/
structure RadioOption where
  text : String
  selected : Bool
  deriving DecidableEq

/-- The bidirectional substring test of `_select_radio_option`:
`target_lower in label_text or label_text in target_lower`. -/
def matchesTarget (tl : String) (o : RadioOption) : Bool :=
  pyIn tl (pyLower o.text) || pyIn (pyLower o.text) tl

/-- First loop of `_select_radio_option` (main.py lines 989-1015): walk
the labels in order; at each label, first return `True` if its input is
already selected, else click it and return `True` if its text matches
the target; `none` means the loop fell through.  The returned index is
the clicked option (`none` = no click). -/
def radioPhase1 (tl : String) : List RadioOption → Nat → Option (Bool × Option Nat)
  | [], _ => none
  | o :: rest, i =>
      if o.selected then some (true, none)
      else if matchesTarget tl o then some (true, some i)
      else radioPhase1 tl rest (i + 1)

/-- Synonym loops of `_select_radio_option` (main.py lines 1017-1039):
click the first option whose text contains any synonym. -/
def radioSynPhase (words : List String) : List RadioOption → Nat → Option Nat
  | [], _ => none
  | o :: rest, i =>
      if words.any (fun w => pyIn w (pyLower o.text)) then some i
      else radioSynPhase words rest (i + 1)

/-- Synonyms broadening a `yes` target. -/
def yesWords : List String := ["yes", "i am", "i do", "willing", "able"]

/-- Synonyms broadening a `no` target. -/
def noWords : List String := ["no", "not", "don\x27t", "unable", "do not require"]

/-- `LinkedInJobAgent._select_radio_option` (main.py lines 984-1046):
the exact/selected loop, then the synonym loop for `yes`/`no` targets,
else `False`.  Result: the returned boolean and the index of the
clicked option (`none` when nothing was clicked). -/
def selectRadio (target : String) (opts : List RadioOption) : Bool × Option Nat :=
  let tl := pyLower target
  match radioPhase1 tl opts 0 with
  | some r => r
  | none =>
      if tl = "yes" then
        match radioSynPhase yesWords opts 0 with
        | some i => (true, some i)
        | none => (false, none)
      else if tl = "no" then
        match radioSynPhase noWords opts 0 with
        | some i => (true, some i)
        | none => (false, none)
      else (false, none)

/-- C5 counterexample: the claim is false as stated.  In the group
`[Yes (unselected), No (selected)]` with target `yes`, the walk reaches
the matching `Yes` label BEFORE the selected `No` label, and clicks it
(index 0): the group's selection state is mutated even though an
option was already selected. -/
theorem selectRadio_clicks_despite_selection :
    selectRadio "yes" [⟨"Yes", false⟩, ⟨"No", true⟩] = (true, some 0)
    ∧ ([⟨"Yes", false⟩, ⟨"No", true⟩] : List RadioOption).any
        (fun o => o.selected) = true := by
  constructor
  · decide
  · decide

/-- The phase-1 walk returns `(True, no click)` at the first selected
option when no earlier option is selected or matches the target. -/
theorem radioPhase1_skips_to_selected (tl : String) (o : RadioOption)
    (ho : o.selected = true) :
    ∀ (pre : List RadioOption) (k : Nat),
      (∀ q ∈ pre, q.selected = false ∧ matchesTarget tl q = false) →
      ∀ rest, radioPhase1 tl (pre ++ o :: rest) k = some (true, none) := by
  intro pre
  induction pre with
  | nil => intro k _ rest; simp [radioPhase1, ho]
  | cons q qs ih =>
      intro k hp rest
      have hq := hp q (List.mem_cons_self _ _)
      simp only [List.cons_append, radioPhase1, hq.1, hq.2, Bool.false_eq_true,
        if_false]
      exact ih (k + 1) (fun r hr => hp r (List.mem_cons_of_mem _ hr)) rest

/-- C5 as amended: if an option is already selected and no option
EARLIER in the group (in document order) is selected or matches the
target, `_select_radio_option` returns `True` without clicking
anything, leaving the existing selection untouched — in particular for
a group whose sole option is already selected, whatever its text. -/
theorem selectRadio_keeps_earlier_selection (target : String)
    (pre rest : List RadioOption) (o : RadioOption) (ho : o.selected = true)
    (hpre : ∀ q ∈ pre, q.selected = false ∧ matchesTarget (pyLower target) q = false) :
    selectRadio target (pre ++ o :: rest) = (true, none) := by
  simp only [selectRadio]
  rw [radioPhase1_skips_to_selected (pyLower target) o ho pre 0 hpre rest]

/-- Witness for C5 at the claim's own example: a single already
selected `Yes` option under the work-authorization question. -/
theorem selectRadio_keeps_earlier_selection_witness :
    selectRadio "yes" [⟨"Yes", true⟩] = (true, none) :=
  selectRadio_keeps_earlier_selection "yes" [] [] ⟨"Yes", true⟩ rfl
    (fun q hq => absurd hq (List.not_mem_nil q))

/-- The per-job environment of `process_current_job` (main.py lines
300-361): the extracted id and title, whether the eligibility gate
approves (covering both the advisory decision and the no-agent mode),
whether the Easy Apply button is found, and whether
`_complete_application` returns `True`. -/
structure Job where
  id : String
  title : String
  gateApproves : Bool
  hasEasyApply : Bool
  flowSucceeds : Bool
  deriving DecidableEq

/-- What one `process_current_job` call did: which job it saw, whether
the application flow (`_complete_application`) was started, and whether
it succeeded. -/
structure TraceEntry where
  jobId : String
  flowStarted : Bool
  succeeded : Bool
  deriving DecidableEq

/-- `process_current_job` (main.py lines 300-361) against the
applied-jobs set: missing id/title, an already-applied id, a gate
rejection and a missing Easy Apply button all skip before the flow is
started; a successful flow adds the id to the set. -/
def processJob (applied : List String) (j : Job) : TraceEntry × List String :=
  if j.id = "" ∨ j.title = "" then (⟨j.id, false, false⟩, applied)
  else if j.id ∈ applied then (⟨j.id, false, false⟩, applied)
  else if j.gateApproves = false then (⟨j.id, false, false⟩, applied)
  else if j.hasEasyApply = false then (⟨j.id, false, false⟩, applied)
  else if j.flowSucceeds then (⟨j.id, true, true⟩, j.id :: applied)
  else (⟨j.id, true, false⟩, applied)

/-- The main loop of `run` restricted to its job-processing effect:
process each job in order, threading the applied-jobs set, and record
the trace. -/
def runJobs (applied : List String) : List Job → List TraceEntry
  | [] => []
  | j :: rest => (processJob applied j).1 :: runJobs (processJob applied j).2 rest

/-- The applied-jobs set after processing a list of jobs. -/
def appliedAfter (applied : List String) : List Job → List String
  | [] => applied
  | j :: rest => appliedAfter (processJob applied j).2 rest

/-- Processing a job never removes an id from the applied-jobs set. -/
theorem processJob_preserves (applied : List String) (j : Job) (x : String)
    (hx : x ∈ applied) : x ∈ (processJob applied j).2 := by
  unfold processJob
  split_ifs <;> first
    | exact hx
    | exact List.mem_cons_of_mem _ hx

/-- A job whose id is already in the applied-jobs set is skipped:
the flow is not started and the set is unchanged. -/
theorem processJob_skips_mem (applied : List String) (j : Job)
    (hx : j.id ∈ applied) :
    (processJob applied j).1.flowStarted = false
    ∧ (processJob applied j).2 = applied := by
  unfold processJob
  split_ifs <;> simp_all

/-- A successful application puts its job id into the set. -/
theorem processJob_success_mem (applied : List String) (j : Job)
    (h : (processJob applied j).1.succeeded = true) :
    j.id ∈ (processJob applied j).2 := by
  unfold processJob at h ⊢
  split_ifs at h ⊢
  simp_all

/-- No trace entry for an id already in the applied-jobs set ever has
its flow started. -/
theorem runJobs_no_start_of_mem (x : String) :
    ∀ (jobs : List Job) (applied : List String), x ∈ applied →
      ∀ e ∈ runJobs applied jobs, e.jobId = x → e.flowStarted = false := by
  intro jobs
  induction jobs with
  | nil => intro applied _ e he; exact absurd he (List.not_mem_nil e)
  | cons j rest ih =>
      intro applied hx e he hid
      cases List.mem_cons.mp he with
      | inl heq =>
          subst heq
          have hji : (processJob applied j).1.jobId = j.id := by
            unfold processJob
            split_ifs <;> rfl
          have : j.id ∈ applied := by
            have hxj : j.id = x := by
              rw [← hji]
              exact hid
            rw [hxj]
            exact hx
          exact (processJob_skips_mem applied j this).1
      | inr htl =>
          exact ih (processJob applied j).2 (processJob_preserves _ _ _ hx) e htl hid

/-- The trace of a split run decomposes at the split point. -/
theorem runJobs_append (a : List String) (l1 l2 : List Job) :
    runJobs a (l1 ++ l2) = runJobs a l1 ++ runJobs (appliedAfter a l1) l2 := by
  induction l1 generalizing a with
  | nil => rfl
  | cons j rest ih => simp [runJobs, appliedAfter, ih]

/-- C6: the applied-jobs set deduplicates.  (1) A job id present in the
set loaded at startup is never flow-started by any later processing;
(2) once a run of the flow for `j0` succeeds, the id is in the set, so
no later processing of the same id starts the flow again; (3) the
full-run trace decomposes so that (2) really speaks about the
continuation of the same run. -/
theorem applied_jobs_dedup (a : List String) (jobs1 jobs2 : List Job)
    (j0 : Job) (x : String) (hx : x ∈ a)
    (hsucc : (processJob (appliedAfter a jobs1) j0).1.succeeded = true) :
    (∀ e ∈ runJobs a (jobs1 ++ j0 :: jobs2), e.jobId = x → e.flowStarted = false)
    ∧ (∀ e ∈ runJobs (processJob (appliedAfter a jobs1) j0).2 jobs2,
        e.jobId = j0.id → e.flowStarted = false)
    ∧ runJobs a (jobs1 ++ j0 :: jobs2)
        = runJobs a jobs1 ++ (processJob (appliedAfter a jobs1) j0).1
          :: runJobs (processJob (appliedAfter a jobs1) j0).2 jobs2 := by
  refine ⟨?_, ?_, ?_⟩
  · intro e he hid
    exact runJobs_no_start_of_mem x _ a hx e he hid
  · intro e he hid
    exact runJobs_no_start_of_mem j0.id jobs2 _
      (processJob_success_mem _ _ hsucc) e he hid
  · rw [runJobs_append]
    rfl

/-- Witness for C6: with startup set `{"7"}`, a run that first sees job
"7" (skipped) and then applies to job "9" twice; the first trace entry
(job "7") has its flow not started. -/
theorem applied_jobs_dedup_witness :
    ((runJobs ["7"] ([⟨"7", "Dev", true, true, true⟩] ++
        (⟨"9", "Dev", true, true, true⟩ : Job) ::
        [⟨"9", "Dev", true, true, true⟩])).get
      ⟨0, by decide⟩).flowStarted = false :=
  (applied_jobs_dedup ["7"] [⟨"7", "Dev", true, true, true⟩]
      [⟨"9", "Dev", true, true, true⟩] ⟨"9", "Dev", true, true, true⟩ "7"
      (by decide) (by decide)).1
    _ (List.get_mem _ _ _) (by decide)

/-- `JobApplication` (main.py lines 46-54). -/
structure AppRecord where
  jobId : String
  title : String
  company : String
  location : String
  timestamp : String
  status : String
  url : String
  deriving DecidableEq

/-- The persisted `applied_jobs.json` document. -/
structure HistoryFile where
  jobIds : List String
  applications : List AppRecord
  deriving DecidableEq

/-- `LinkedInJobAgent.save_applied_job` (main.py lines 234-249): read
the file if present, then OVERWRITE its `job_ids` with the in-memory
set and append the new record to `applications`, then write it back.
`disk = none` is the `FileNotFoundError` path. -/
def saveAppliedJob (memIds : List String) (rec : AppRecord)
    (disk : Option HistoryFile) : HistoryFile :=
  let data : HistoryFile := match disk with
    | none => { jobIds := memIds, applications := [] }
    | some d => d
  { jobIds := memIds, applications := data.applications ++ [rec] }

/-- C7 counterexample: the claim is false as stated.  With `["A"]` on
disk and `["B"]` in memory, the written file's `job_ids` is exactly
`["B"]`: the id `"A"` that was on disk immediately before the write is
lost — `data['job_ids'] = list(self.applied_jobs)` overwrites instead
of merging. -/
theorem saveAppliedJob_drops_external_id :
    (saveAppliedJob ["B"] ⟨"B", "t", "c", "", "2026-01-01", "submitted", "u"⟩
      (some ⟨["A"], []⟩)).jobIds = ["B"]
    ∧ "A" ∉ (saveAppliedJob ["B"] ⟨"B", "t", "c", "", "2026-01-01", "submitted", "u"⟩
      (some ⟨["A"], []⟩)).jobIds := by
  constructor
  · decide
  · decide

/-- C7 as amended: each write sets the on-disk `job_ids` to exactly the
in-memory set (so every in-memory id is preserved, and any on-disk id
not in memory is dropped — there is no read-merge-write of ids), while
the on-disk `applications` list is read back and the new record is
appended to it. -/
theorem saveAppliedJob_writes_memory_ids (memIds : List String)
    (rec : AppRecord) (disk : Option HistoryFile) :
    (saveAppliedJob memIds rec disk).jobIds = memIds
    ∧ (saveAppliedJob memIds rec disk).applications =
        (match disk with
          | some d => d.applications
          | none => []) ++ [rec] := by
  cases disk with
  | none => exact ⟨rfl, rfl⟩
  | some d => exact ⟨rfl, rfl⟩

end EasyApply
